import Mathlib

/-!
Shallow embedding of `src/system_monitor.py` (class `EmailAlertSystem`).

Modelling conventions:
* Python floats (timestamps from `time.time()`, percentages from `psutil`)
  are modelled as rationals `ℚ`; the program performs only comparisons,
  subtraction and division on them, none of which are claimed at
  float-rounding granularity.
* `self.alert_history` (a Python dict from alert-type string to last-fired
  timestamp) is modelled as an association list `AlertHistory`;
  `historyGet` is `dict.get(key, 0)` and `historySet` is `dict[key] = v`.
* The metrics provider (psutil) is a collaborator: each check function is
  parameterised by the gauges it would read.  A disk partition whose
  `psutil.disk_usage` call raises `PermissionError` is modelled as a
  partition whose `usage` field is `none` (the `except PermissionError:
  continue` branch).
* `send_email` wraps its whole body in `try/except Exception` and returns
  a bool; the SMTP transport is modelled by an `SmtpOutcome` oracle, and
  an exception anywhere in the body is the `failure` case.
* The human-readable `message` strings of alerts (Python f-strings with
  float formatting such as `:.1f`) are not modelled; every other field of
  the alert dicts (`type`, `value`, `threshold`, `priority`) is.
-/

namespace SystemMonitor

/-! ## Data model -/

/-- The `thresholds` section of the configuration
(`self.config['thresholds']`). -/
structure Thresholds where
  cpu_percent : ℚ
  memory_percent : ℚ
  disk_percent : ℚ
  load_average : ℚ
deriving Repr, DecidableEq

/-- One alert dict as built by the check functions: fields `type`,
`value`, `threshold`, `priority` (the `message` f-string is not
modelled). -/
structure Alert where
  type : String
  value : ℚ
  threshold : ℚ
  priority : String
deriving Repr, DecidableEq

/-- `self.alert_history`: maps an alert-type string to the timestamp of
its last admitted alert. -/
abbrev AlertHistory := List (String × ℚ)

/-- `self.alert_history.get(alert_type, 0)`: a never-fired type reads
as timestamp `0`. -/
def historyGet : AlertHistory → String → ℚ
  | [], _ => 0
  | (k, v) :: rest, key => if k = key then v else historyGet rest key

/-- `self.alert_history[alert_type] = now`: replace the entry if the key
is present, append it otherwise. -/
def historySet : AlertHistory → String → ℚ → AlertHistory
  | [], key, v => [(key, v)]
  | (k, w) :: rest, key, v =>
      if k = key then (key, v) :: rest else (k, w) :: historySet rest key v

/-- `EmailAlertSystem.should_send_alert` (src/system_monitor.py:236-245).
`now` is the value `time.time()` returns during the call, `cooldown` is
`self.config['monitoring']['cooldown_period']`.  Returns the boolean
result together with the updated `alert_history`. -/
def shouldSendAlert (h : AlertHistory) (cooldown : ℚ) (alertType : String)
    (now : ℚ) : Bool × AlertHistory :=
  let last_sent := historyGet h alertType
  if now - last_sent > cooldown then (true, historySet h alertType now)
  else (false, h)

/-! ## Threshold evaluator: the four check functions -/

/-- Result of `check_cpu_usage`: the dict
`{'cpu_percent': ..., 'load_avg': ..., 'alerts': [...]}`. -/
structure CpuData where
  cpu_percent : ℚ
  load_avg : ℚ
  alerts : List Alert
deriving Repr, DecidableEq

/-- `EmailAlertSystem.check_cpu_usage` (src/system_monitor.py:133-157),
parameterised by the gauges `psutil.cpu_percent(interval=1)` and
`psutil.getloadavg()[0]` (0 when unsupported). -/
def checkCpuUsage (t : Thresholds) (cpu_percent load_avg : ℚ) : CpuData :=
  let alerts :=
    (if cpu_percent > t.cpu_percent then
      [{ type := "cpu_high", value := cpu_percent,
         threshold := t.cpu_percent,
         priority := if cpu_percent > 95 then "high" else "medium" }]
    else [])
    ++
    (if load_avg > t.load_average then
      [{ type := "load_high", value := load_avg,
         threshold := t.load_average,
         priority := if load_avg > 8 then "high" else "medium" }]
    else [])
  { cpu_percent := cpu_percent, load_avg := load_avg, alerts := alerts }

/-- Result of `check_memory_usage`. -/
structure MemoryData where
  memory_percent : ℚ
  swap_percent : ℚ
  alerts : List Alert
deriving Repr, DecidableEq

/-- `EmailAlertSystem.check_memory_usage` (src/system_monitor.py:159-187),
parameterised by `psutil.virtual_memory().percent` and
`psutil.swap_memory().percent`.  The swap threshold is the literal 50
and the swap alert's priority is always `"high"`. -/
def checkMemoryUsage (t : Thresholds) (memory_percent swap_percent : ℚ) :
    MemoryData :=
  let alerts :=
    (if memory_percent > t.memory_percent then
      [{ type := "memory_high", value := memory_percent,
         threshold := t.memory_percent,
         priority := if memory_percent > 95 then "high" else "medium" }]
    else [])
    ++
    (if swap_percent > 50 then
      [{ type := "swap_high", value := swap_percent, threshold := 50,
         priority := "high" }]
    else [])
  { memory_percent := memory_percent, swap_percent := swap_percent,
    alerts := alerts }

/-- What `psutil.disk_usage(mountpoint)` returns when it does not raise. -/
structure DiskUsage where
  used : ℚ
  total : ℚ
  free : ℚ
deriving Repr, DecidableEq

/-- One entry of `psutil.disk_partitions()` together with the outcome of
querying it: `usage = none` models `psutil.disk_usage` raising
`PermissionError` for that mountpoint. -/
structure Partition where
  mountpoint : String
  usage : Option DiskUsage
deriving Repr, DecidableEq

/-- Result of `check_disk_usage`: the `disk_info` mapping (in mount
enumeration order) and the alerts. -/
structure DiskData where
  disk_usage : List (String × ℚ)
  alerts : List Alert
deriving Repr, DecidableEq

/-- `EmailAlertSystem.check_disk_usage` (src/system_monitor.py:189-211):
iterate the partitions in enumeration order; a `PermissionError`
(`usage = none`) hits `continue`, skipping the mount entirely; otherwise
`percent_used = used / total * 100` is recorded in `disk_info` and an
alert is appended when it exceeds the disk threshold. -/
def checkDiskUsage (t : Thresholds) : List Partition → DiskData
  | [] => { disk_usage := [], alerts := [] }
  | p :: rest =>
      let r := checkDiskUsage t rest
      match p.usage with
      | none => r
      | some u =>
          let percent_used := u.used / u.total * 100
          let here :=
            if percent_used > t.disk_percent then
              [{ type := "disk_high", value := percent_used,
                 threshold := t.disk_percent,
                 priority := if percent_used > 95 then "high"
                   else "medium" }]
            else []
          { disk_usage := (p.mountpoint, percent_used) :: r.disk_usage,
            alerts := here ++ r.alerts }

/-- The alert `check_disk_usage` produces for one readable, breaching
partition (`none` when unreadable or below threshold); used to state
that the disk alerts are exactly the in-order breaching mounts. -/
def diskCandidate (t : Thresholds) (p : Partition) : Option Alert :=
  p.usage.bind fun u =>
    let percent_used := u.used / u.total * 100
    if percent_used > t.disk_percent then
      some { type := "disk_high", value := percent_used,
             threshold := t.disk_percent,
             priority := if percent_used > 95 then "high" else "medium" }
    else none

/-- One `(pid, name, cpu_percent)` tuple from `psutil.process_iter`. -/
structure Proc where
  pid : ℕ
  name : String
  cpu_percent : ℚ
deriving Repr, DecidableEq

/-- Stable insertion step of the descending-by-CPU sort: keep passing
elements with strictly greater CPU, so that among equal keys the
original (earlier) element stays first — the stability Python's
`list.sort(key=..., reverse=True)` guarantees. -/
def insertByCpu (x : Proc) : List Proc → List Proc
  | [] => [x]
  | y :: ys =>
      if y.cpu_percent > x.cpu_percent then y :: insertByCpu x ys
      else x :: y :: ys

/-- `processes.sort(key=lambda x: x[2], reverse=True)`: stable sort by
descending `cpu_percent`. -/
def sortByCpuDesc : List Proc → List Proc
  | [] => []
  | x :: xs => insertByCpu x (sortByCpuDesc xs)

/-- Result of `check_system_processes`: the top-5 process list (kept as
the tuples; their rendered strings are not modelled) and the alerts. -/
structure ProcessData where
  top_processes : List Proc
  alerts : List Alert
deriving Repr, DecidableEq

/-- The alert `check_system_processes` appends for one of the top-5
processes, when its CPU exceeds the literal 50; priority is always
`"medium"`. -/
def procCandidate (p : Proc) : Option Alert :=
  if p.cpu_percent > 50 then
    some { type := "process_high_cpu", value := p.cpu_percent,
           threshold := 50, priority := "medium" }
  else none

/-- `EmailAlertSystem.check_system_processes`
(src/system_monitor.py:213-234), parameterised by the
`(pid, name, cpu_percent)` tuples of `psutil.process_iter`: sort by
descending CPU, keep the first five (`processes[:5]`), and alert on
each of those whose CPU exceeds 50. -/
def checkSystemProcesses (processes : List Proc) : ProcessData :=
  let top := (sortByCpuDesc processes).take 5
  { top_processes := top, alerts := top.filterMap procCandidate }

/-! ## Notifier and cycle orchestration -/

/-- Outcome of the SMTP transport interaction inside `send_email`
(src/system_monitor.py:77-131): `ok` when connect/login/sendmail all
succeed, `failure` when any statement of the `try` block raises (the
caught `Exception`, with its message). -/
inductive SmtpOutcome where
  | ok
  | failure (reason : String)
deriving Repr, DecidableEq

/-- `EmailAlertSystem.send_email`: the whole body is wrapped in
`try/except Exception`; on success it returns `True`, on any transport
or auth exception it logs and returns `False` — it never re-raises. -/
def sendEmail (outcome : SmtpOutcome) : Bool :=
  match outcome with
  | SmtpOutcome.ok => true
  | SmtpOutcome.failure _ => false

/-- The gauges one `run_system_check` cycle reads from psutil. -/
structure Snapshot where
  cpu_percent : ℚ
  load_avg : ℚ
  memory_percent : ℚ
  swap_percent : ℚ
  partitions : List Partition
  processes : List Proc

/-- `run_system_check`'s `all_alerts` (src/system_monitor.py:257-262):
the four check results' alerts concatenated in check order. -/
def collectAlerts (t : Thresholds) (s : Snapshot) : List Alert :=
  (checkCpuUsage t s.cpu_percent s.load_avg).alerts
    ++ (checkMemoryUsage t s.memory_percent s.swap_percent).alerts
    ++ (checkDiskUsage t s.partitions).alerts
    ++ (checkSystemProcesses s.processes).alerts

/-- What the alert loop of `run_system_check` did with one candidate:
the gate decision, and the result of `send_email` when it was called
(`none` when the candidate was rejected and no email was attempted). -/
structure Dispatch where
  alert : Alert
  admitted : Bool
  emailResult : Option Bool
deriving Repr, DecidableEq

/-- The `for alert in all_alerts` loop of `run_system_check`
(src/system_monitor.py:264-292): each candidate in sequence goes through
`should_send_alert`; an admitted one is formatted and sent, and the
boolean `send_email` returns is discarded.  `times i` is the
`time.time()` read inside the i-th gate call and `smtpOk i` the SMTP
outcome of the i-th candidate's email, were it sent. -/
def processAlerts (cooldown : ℚ) (times : ℕ → ℚ) (smtpOk : ℕ → Bool) :
    AlertHistory → ℕ → List Alert → AlertHistory × List Dispatch
  | h, _, [] => (h, [])
  | h, i, a :: rest =>
      let r := shouldSendAlert h cooldown a.type (times i)
      let d : Dispatch :=
        { alert := a, admitted := r.1,
          emailResult := if r.1 then some (smtpOk i) else none }
      let rc := processAlerts cooldown times smtpOk r.2 (i + 1) rest
      (rc.1, d :: rc.2)

/-- `EmailAlertSystem.run_system_check` (src/system_monitor.py:247-292):
collect the snapshot's candidates and run the alert loop over them.
(When no candidate exists the loop body never runs, which is the
`if all_alerts:` guard.) -/
def runSystemCheck (cooldown : ℚ) (t : Thresholds) (s : Snapshot)
    (times : ℕ → ℚ) (smtpOk : ℕ → Bool) (h : AlertHistory) :
    AlertHistory × List Dispatch :=
  processAlerts cooldown times smtpOk h 0 (collectAlerts t s)

/-- One `--check` invocation of `main` (src/system_monitor.py:332-368):
`EmailAlertSystem.__init__` sets `self.alert_history = {}`, so the
single `run_system_check` starts from the empty cooldown state. -/
def runCheckInvocation (cooldown : ℚ) (t : Thresholds) (s : Snapshot)
    (times : ℕ → ℚ) (smtpOk : ℕ → Bool) : AlertHistory × List Dispatch :=
  runSystemCheck cooldown t s times smtpOk []

/-! ## Configuration loading -/

/-- A parsed JSON value, for the configuration file. -/
inductive JsonValue where
  | null
  | bool (b : Bool)
  | num (q : ℚ)
  | str (s : String)
  | arr (elems : List JsonValue)
  | obj (fields : List (String × JsonValue))

/-- A top-level JSON object: the shape of the configuration file. -/
abbrev JsonObject := List (String × JsonValue)

/-- Python dict key lookup on a parsed JSON object. -/
def objGet (o : JsonObject) (key : String) : Option JsonValue :=
  (o.find? fun kv => kv.1 == key).map fun kv => kv.2

/-- The `default_config` dict of `load_config`
(src/system_monitor.py:37-60). -/
def default_config : JsonObject :=
  [ ("smtp", JsonValue.obj
      [ ("server", JsonValue.str "smtp.gmail.com"),
        ("port", JsonValue.num 587),
        ("username", JsonValue.str "your-email@gmail.com"),
        ("password", JsonValue.str "your-app-password"),
        ("use_tls", JsonValue.bool true) ]),
    ("alerts", JsonValue.obj
      [ ("from_email", JsonValue.str "alerts@yourcompany.com"),
        ("to_emails", JsonValue.arr
          [ JsonValue.str "admin1@yourcompany.com",
            JsonValue.str "admin2@yourcompany.com" ]),
        ("subject_prefix", JsonValue.str "[SYSTEM ALERT]") ]),
    ("thresholds", JsonValue.obj
      [ ("cpu_percent", JsonValue.num 80),
        ("memory_percent", JsonValue.num 85),
        ("disk_percent", JsonValue.num 90),
        ("load_average", JsonValue.num 4) ]),
    ("monitoring", JsonValue.obj
      [ ("check_interval", JsonValue.num 60),
        ("cooldown_period", JsonValue.num 300) ]) ]

/-- The merge loop of `load_config` (src/system_monitor.py:66-68):
`for key in default_config: if key not in config: config[key] =
default_config[key]` — each default top-level key missing from the file
is appended (Python dicts append new keys in insertion order); present
keys are left exactly as the file had them. -/
def mergeDefaults (defaults config : JsonObject) : JsonObject :=
  defaults.foldl
    (fun cfg kv => if cfg.any fun kv2 => kv2.1 == kv.1 then cfg
      else cfg ++ [kv])
    config

/-- `EmailAlertSystem.load_config` (src/system_monitor.py:35-75).  The
argument is `some fields` when opening and parsing the file succeeds,
`none` when `open` raises `FileNotFoundError` (a malformed file raises
out of the function and is not modelled here).  Returns the
configuration used, together with what was written to the file path
(`some default_config` exactly in the absent-file branch). -/
def load_config (fileContents : Option JsonObject) :
    JsonObject × Option JsonObject :=
  match fileContents with
  | some config => (mergeDefaults default_config config, none)
  | none => (default_config, some default_config)

/-! ## Helper lemmas -/

theorem historyGet_historySet_self (h : AlertHistory) (k : String) (v : ℚ) :
    historyGet (historySet h k v) k = v := by
  induction h with
  | nil => simp [historySet, historyGet]
  | cons p rest ih =>
      obtain ⟨k0, v0⟩ := p
      by_cases hk : k0 = k
      · simp [historySet, hk, historyGet]
      · simp [historySet, hk, historyGet, ih]

theorem historyGet_historySet_other (h : AlertHistory) (k k' : String)
    (v : ℚ) (hne : k' ≠ k) :
    historyGet (historySet h k v) k' = historyGet h k' := by
  induction h with
  | nil =>
      simp [historySet, historyGet]
      intro hk
      exact absurd hk.symm hne
  | cons p rest ih =>
      obtain ⟨k0, v0⟩ := p
      by_cases hk : k0 = k
      · subst hk
        have hk0 : k0 ≠ k' := fun hkk => hne hkk.symm
        simp [historySet, historyGet, hk0]
      · simp [historySet, hk, historyGet, ih]

theorem historyGet_eq_zero_of_absent (h : AlertHistory) (k : String)
    (habs : ∀ p ∈ h, p.1 ≠ k) : historyGet h k = 0 := by
  induction h with
  | nil => rfl
  | cons p rest ih =>
      obtain ⟨k0, v0⟩ := p
      have h0 : k0 ≠ k := habs (k0, v0) (List.mem_cons_self _ _)
      simp [historyGet, h0]
      exact ih fun q hq => habs q (List.mem_cons_of_mem _ hq)

/-- A gate call leaves every other type's stored timestamp unchanged
(shared helper; holds in both the admit and the reject branch). -/
theorem historyGet_gate_other (h : AlertHistory) (cooldown now : ℚ)
    (tp other : String) (hne : other ≠ tp) :
    historyGet (shouldSendAlert h cooldown tp now).2 other
      = historyGet h other := by
  by_cases hc : now - historyGet h tp > cooldown
  · simp [shouldSendAlert, hc, historyGet_historySet_other h tp other now hne]
  · simp [shouldSendAlert, hc]

/-- The dispatch list of the alert loop records exactly the candidate
list, in order. -/
theorem processAlerts_map_alert (c : ℚ) (times : ℕ → ℚ) (eo : ℕ → Bool) :
    ∀ (l : List Alert) (h : AlertHistory) (i : ℕ),
    ((processAlerts c times eo h i l).2.map Dispatch.alert) = l := by
  intro l
  induction l with
  | nil => intro h i; simp [processAlerts]
  | cons a rest ih => intro h i; simp [processAlerts, ih]

/-- The final history and every gate decision of the alert loop are
independent of the SMTP outcomes: `run_system_check` discards the
boolean `send_email` returns. -/
theorem processAlerts_email_indep (c : ℚ) (times : ℕ → ℚ)
    (eo₁ eo₂ : ℕ → Bool) :
    ∀ (l : List Alert) (h : AlertHistory) (i : ℕ),
    (processAlerts c times eo₁ h i l).1 = (processAlerts c times eo₂ h i l).1
    ∧ (processAlerts c times eo₁ h i l).2.map
        (fun d => (d.alert, d.admitted))
      = (processAlerts c times eo₂ h i l).2.map
        (fun d => (d.alert, d.admitted)) := by
  intro l
  induction l with
  | nil => intro h i; simp [processAlerts]
  | cons a rest ih =>
      intro h i
      refine ⟨?_, ?_⟩
      · simp only [processAlerts]
        exact (ih _ _).1
      · simp only [processAlerts, List.map_cons]
        rw [(ih _ _).2]

/-- Splitting the alert loop over a concatenation of candidate lists. -/
theorem processAlerts_append (c : ℚ) (times : ℕ → ℚ) (eo : ℕ → Bool)
    (l₁ l₂ : List Alert) : ∀ (h : AlertHistory) (i : ℕ),
    processAlerts c times eo h i (l₁ ++ l₂)
      = ((processAlerts c times eo
            (processAlerts c times eo h i l₁).1 (i + l₁.length) l₂).1,
         (processAlerts c times eo h i l₁).2
           ++ (processAlerts c times eo
                (processAlerts c times eo h i l₁).1 (i + l₁.length) l₂).2) := by
  induction l₁ with
  | nil => intro h i; simp [processAlerts]
  | cons a l₁ ih =>
      intro h i
      have harith : i + (l₁.length + 1) = (i + 1) + l₁.length := by omega
      simp only [List.cons_append, processAlerts, List.append_eq, ih,
        List.length_cons, harith]

/-- A run over candidates none of which has type `tp` leaves `tp`'s
stored timestamp unchanged. -/
theorem processAlerts_frame (c : ℚ) (times : ℕ → ℚ) (eo : ℕ → Bool)
    (tp : String) :
    ∀ (l : List Alert) (h : AlertHistory) (i : ℕ),
    (∀ b ∈ l, b.type ≠ tp) →
    historyGet (processAlerts c times eo h i l).1 tp = historyGet h tp := by
  intro l
  induction l with
  | nil => intro h i _; simp [processAlerts]
  | cons b rest ih =>
      intro h i hl
      have hb : b.type ≠ tp := hl b (List.mem_cons_self _ _)
      have hrest : ∀ x ∈ rest, x.type ≠ tp :=
        fun x hx => hl x (List.mem_cons_of_mem _ hx)
      simp only [processAlerts]
      calc historyGet (processAlerts c times eo
              (shouldSendAlert h c b.type (times i)).2 (i + 1) rest).1 tp
          = historyGet (shouldSendAlert h c b.type (times i)).2 tp :=
            ih _ _ hrest
        _ = historyGet h tp :=
            historyGet_gate_other h c (times i) b.type tp
              (fun he => hb he.symm)

/-- While `tp`'s stored timestamp is `t₁` and every gate-call time stays
within one cooldown window of `t₁`, every candidate of type `tp` is
rejected and the stored timestamp stays `t₁`. -/
theorem processAlerts_suppressed (c : ℚ) (times : ℕ → ℚ) (eo : ℕ → Bool)
    (tp : String) (t₁ : ℚ) :
    ∀ (l : List Alert) (h : AlertHistory) (i : ℕ),
    historyGet h tp = t₁ →
    (∀ j, i ≤ j → j < i + l.length → times j - t₁ ≤ c) →
    (∀ d ∈ (processAlerts c times eo h i l).2,
        d.alert.type = tp → d.admitted = false)
    ∧ historyGet (processAlerts c times eo h i l).1 tp = t₁ := by
  intro l
  induction l with
  | nil =>
      intro h i hh _
      exact ⟨by simp [processAlerts], by simpa [processAlerts] using hh⟩
  | cons a rest ih =>
      intro h i hh hw
      have hwrest : ∀ j, i + 1 ≤ j → j < (i + 1) + rest.length →
          times j - t₁ ≤ c :=
        fun j hj hj2 => hw j (by omega) (by simp [List.length_cons]; omega)
      by_cases hat : a.type = tp
      · have hcond : ¬ times i - historyGet h a.type > c := by
          rw [hat, hh]
          exact not_lt.mpr
            (hw i le_rfl (by simp only [List.length_cons]; omega))
        have hgate : shouldSendAlert h c a.type (times i) = (false, h) := by
          simp [shouldSendAlert, hcond]
        have hrec := ih h (i + 1) hh hwrest
        refine ⟨?_, ?_⟩
        · intro d hd hdt
          simp only [processAlerts, hgate] at hd
          rcases List.mem_cons.mp hd with rfl | hd2
          · rfl
          · exact hrec.1 d hd2 hdt
        · simp only [processAlerts, hgate]
          exact hrec.2
      · have hfr : historyGet (shouldSendAlert h c a.type (times i)).2 tp
            = t₁ := by
          rw [historyGet_gate_other h c (times i) a.type tp
            (fun he => hat he.symm)]
          exact hh
        have hrec := ih (shouldSendAlert h c a.type (times i)).2 (i + 1)
          hfr hwrest
        refine ⟨?_, ?_⟩
        · intro d hd hdt
          simp only [processAlerts] at hd
          rcases List.mem_cons.mp hd with rfl | hd2
          · exact absurd hdt hat
          · exact hrec.1 d hd2 hdt
        · simp only [processAlerts]
          exact hrec.2

/-- `insertByCpu` inserts its element: the result is a permutation of
the cons. -/
theorem insertByCpu_perm (x : Proc) (l : List Proc) :
    List.Perm (insertByCpu x l) (x :: l) := by
  induction l with
  | nil => exact List.Perm.refl _
  | cons y ys ih =>
      by_cases hc : y.cpu_percent > x.cpu_percent
      · simp only [insertByCpu, if_pos hc]
        exact (List.Perm.cons y ih).trans (List.Perm.swap x y ys)
      · simp only [insertByCpu, if_neg hc]
        exact List.Perm.refl _

/-- The descending sort is a permutation of its input. -/
theorem sortByCpuDesc_perm (l : List Proc) :
    List.Perm (sortByCpuDesc l) l := by
  induction l with
  | nil => exact List.Perm.refl _
  | cons x xs ih =>
      exact (insertByCpu_perm x (sortByCpuDesc xs)).trans
        (List.Perm.cons x ih)

theorem mem_insertByCpu {z x : Proc} {l : List Proc} :
    z ∈ insertByCpu x l ↔ z = x ∨ z ∈ l := by
  rw [(insertByCpu_perm x l).mem_iff, List.mem_cons]

theorem pairwise_insertByCpu (x : Proc) (l : List Proc)
    (hl : List.Pairwise (fun p q => q.cpu_percent ≤ p.cpu_percent) l) :
    List.Pairwise (fun p q => q.cpu_percent ≤ p.cpu_percent)
      (insertByCpu x l) := by
  induction l with
  | nil => simp [insertByCpu]
  | cons y ys ih =>
      rcases List.pairwise_cons.mp hl with ⟨hy, hys⟩
      by_cases hc : y.cpu_percent > x.cpu_percent
      · simp only [insertByCpu, if_pos hc]
        refine List.pairwise_cons.mpr ⟨?_, ih hys⟩
        intro z hz
        rcases mem_insertByCpu.mp hz with rfl | hzys
        · exact le_of_lt hc
        · exact hy z hzys
      · simp only [insertByCpu, if_neg hc]
        refine List.pairwise_cons.mpr ⟨?_, hl⟩
        intro z hz
        rcases List.mem_cons.mp hz with rfl | hzys
        · exact not_lt.mp hc
        · exact le_trans (hy z hzys) (not_lt.mp hc)

/-- The descending sort is sorted: each element's CPU is at least every
later element's. -/
theorem sortByCpuDesc_sorted (l : List Proc) :
    List.Pairwise (fun p q => q.cpu_percent ≤ p.cpu_percent)
      (sortByCpuDesc l) := by
  induction l with
  | nil => simp [sortByCpuDesc]
  | cons x xs ih => exact pairwise_insertByCpu x _ ih

/-- The disk alerts are exactly the in-order breaching readable mounts. -/
theorem checkDiskUsage_alerts_filterMap (t : Thresholds)
    (parts : List Partition) :
    (checkDiskUsage t parts).alerts = parts.filterMap (diskCandidate t) := by
  induction parts with
  | nil => rfl
  | cons p rest ih =>
      match hp : p.usage with
      | none =>
          simp [checkDiskUsage, hp, diskCandidate, List.filterMap_cons, ih]
      | some u =>
          by_cases hb : u.used / u.total * 100 > t.disk_percent
            <;> simp [checkDiskUsage, hp, diskCandidate,
                  List.filterMap_cons, hb, ih]

theorem objGet_cons (k' : String) (v : JsonValue) (o : JsonObject)
    (k : String) :
    objGet ((k', v) :: o) k = if k' == k then some v else objGet o k := by
  simp only [objGet, List.find?]
  cases h : (k' == k) <;> simp [h]

theorem objGet_append (o₁ o₂ : JsonObject) (k : String) :
    objGet (o₁ ++ o₂) k = (objGet o₁ k).or (objGet o₂ k) := by
  induction o₁ with
  | nil => simp [objGet]
  | cons p o₁ ih =>
      obtain ⟨k', v⟩ := p
      rw [List.cons_append, objGet_cons, objGet_cons]
      cases h : (k' == k) <;> simp [h, ih]

theorem objGet_isSome_of_any (o : JsonObject) (k : String)
    (h : o.any (fun kv => kv.1 == k) = true) : (objGet o k).isSome := by
  obtain ⟨kv, hkv, hb⟩ := List.any_eq_true.mp h
  have hf : (List.find? (fun kv => kv.1 == k) o).isSome :=
    List.find?_isSome.mpr ⟨kv, hkv, hb⟩
  simpa [objGet, Option.isSome_map] using hf

theorem mergeDefaults_cons (d : String × JsonValue) (ds cfg : JsonObject) :
    mergeDefaults (d :: ds) cfg
      = mergeDefaults ds
          (if cfg.any fun kv2 => kv2.1 == d.1 then cfg else cfg ++ [d]) :=
  rfl

/-- The shallow merge looks keys up file-first: a top-level key present
in the file is returned verbatim, a missing one falls back to the
defaults. -/
theorem objGet_mergeDefaults (ds : JsonObject) :
    ∀ (cfg : JsonObject) (k : String),
    objGet (mergeDefaults ds cfg) k = (objGet cfg k).or (objGet ds k) := by
  induction ds with
  | nil =>
      intro cfg k
      simp [mergeDefaults, objGet]
  | cons d ds ih =>
      intro cfg k
      rw [mergeDefaults_cons]
      obtain ⟨k', v⟩ := d
      by_cases hmem : cfg.any fun kv2 => kv2.1 == (k', v).1
      · rw [if_pos hmem, ih, objGet_cons]
        by_cases hdk : (k' == k) = true
        · have hk : k' = k := beq_iff_eq.mp hdk
          subst hk
          have hs : (objGet cfg k').isSome := objGet_isSome_of_any cfg k' hmem
          obtain ⟨v0, hv0⟩ := Option.isSome_iff_exists.mp hs
          rw [hv0]
          rfl
        · rw [if_neg hdk]
      · rw [if_neg hmem, ih, objGet_append, Option.or_assoc]
        congr 1
        rw [objGet_cons, objGet_cons]
        cases hdk : (k' == k) <;> simp [hdk, objGet, Option.or]

/-! ## Theorems for the claims -/

/-- **C1.** `should_send_alert` admits (returns `true`) and overwrites the
type's last-fired timestamp with the current time exactly when
`now - lastFired > cooldown_period`; a never-fired type reads as
`lastFired = 0`; at boundary equality and below it returns `false` and
leaves the whole history, in particular the stored timestamp of that
type, unchanged. -/
theorem shouldSendAlert_admit_iff (h : AlertHistory) (cooldown now : ℚ)
    (tp : String) :
    ((shouldSendAlert h cooldown tp now).1 = true ↔
      now - historyGet h tp > cooldown)
    ∧ ((shouldSendAlert h cooldown tp now).1 = true →
        (shouldSendAlert h cooldown tp now).2 = historySet h tp now
        ∧ historyGet (shouldSendAlert h cooldown tp now).2 tp = now)
    ∧ ((shouldSendAlert h cooldown tp now).1 = false →
        (shouldSendAlert h cooldown tp now).2 = h)
    ∧ ((∀ p ∈ h, p.1 ≠ tp) → historyGet h tp = 0)
    ∧ (now - historyGet h tp = cooldown →
        (shouldSendAlert h cooldown tp now).1 = false
        ∧ (shouldSendAlert h cooldown tp now).2 = h) := by
  refine ⟨?_, ?_, ?_, historyGet_eq_zero_of_absent h tp, ?_⟩
  · by_cases hc : now - historyGet h tp > cooldown
    · simp [shouldSendAlert, hc]
    · simp [shouldSendAlert, hc]
  · intro hadm
    by_cases hc : now - historyGet h tp > cooldown
    · exact ⟨by simp [shouldSendAlert, hc],
        by simp [shouldSendAlert, hc, historyGet_historySet_self]⟩
    · simp [shouldSendAlert, hc] at hadm
  · intro hrej
    by_cases hc : now - historyGet h tp > cooldown
    · simp [shouldSendAlert, hc] at hrej
    · simp [shouldSendAlert, hc]
  · intro heq
    have hc : ¬ now - historyGet h tp > cooldown := by
      rw [heq]
      exact lt_irrefl cooldown
    exact ⟨by simp [shouldSendAlert, hc], by simp [shouldSendAlert, hc]⟩

/-- Witness for C1 at a concrete input: history with `cpu_high` last
fired at 100, cooldown 300, call at time 500 (admitted, since
500 - 100 > 300) and the boundary call at time 400 rejected. -/
theorem shouldSendAlert_admit_iff_witness :
    ((shouldSendAlert [("cpu_high", 100)] 300 "cpu_high" 500).1 = true ↔
      (500 : ℚ) - historyGet [("cpu_high", 100)] "cpu_high" > 300)
    ∧ ((shouldSendAlert [("cpu_high", 100)] 300 "cpu_high" 500).1 = true →
        (shouldSendAlert [("cpu_high", 100)] 300 "cpu_high" 500).2
            = historySet [("cpu_high", 100)] "cpu_high" 500
        ∧ historyGet
            (shouldSendAlert [("cpu_high", 100)] 300 "cpu_high" 500).2
            "cpu_high" = 500)
    ∧ ((shouldSendAlert [("cpu_high", 100)] 300 "cpu_high" 500).1 = false →
        (shouldSendAlert [("cpu_high", 100)] 300 "cpu_high" 500).2
          = [("cpu_high", 100)])
    ∧ ((∀ p ∈ [("cpu_high", (100 : ℚ))], p.1 ≠ "cpu_high") →
        historyGet [("cpu_high", 100)] "cpu_high" = 0)
    ∧ ((500 : ℚ) - historyGet [("cpu_high", 100)] "cpu_high" = 300 →
        (shouldSendAlert [("cpu_high", 100)] 300 "cpu_high" 500).1 = false
        ∧ (shouldSendAlert [("cpu_high", 100)] 300 "cpu_high" 500).2
            = [("cpu_high", 100)]) :=
  shouldSendAlert_admit_iff [("cpu_high", 100)] 300 500 "cpu_high"

/-- **C9.** A `should_send_alert` call touches at most the entry of the
alert type it is called with: every other type's stored timestamp (or
its default-0 absence) is unchanged, whether the call admits or
rejects. -/
theorem shouldSendAlert_frame (h : AlertHistory) (cooldown now : ℚ)
    (tp other : String) (hne : other ≠ tp) :
    historyGet (shouldSendAlert h cooldown tp now).2 other
      = historyGet h other :=
  historyGet_gate_other h cooldown now tp other hne

/-- Witness for C9: an admitting call for `cpu_high` leaves the
`disk_high` entry unchanged. -/
theorem shouldSendAlert_frame_witness :
    historyGet
      (shouldSendAlert [("disk_high", 42)] 300 "cpu_high" 1000).2
      "disk_high" = historyGet [("disk_high", 42)] "disk_high" :=
  shouldSendAlert_frame [("disk_high", 42)] 300 1000 "cpu_high" "disk_high"
    (by decide)

/-- **C10.** On a freshly constructed system (`self.alert_history = {}`),
the very first admit call for any type at time `now` returns `false`
whenever `now ≤ cooldown_period`: the absent entry reads as 0 and
admission needs `now - 0 > cooldown`. -/
theorem shouldSendAlert_fresh_suppressed (cooldown now : ℚ) (tp : String)
    (hle : now ≤ cooldown) :
    shouldSendAlert ([] : AlertHistory) cooldown tp now = (false, [])
    ∧ historyGet ([] : AlertHistory) tp = 0 := by
  constructor
  · have hc : ¬ now - historyGet ([] : AlertHistory) tp > cooldown := by
      simp [historyGet]
      exact hle
    simp [shouldSendAlert, hc]
  · rfl

/-- Witness for C10: cooldown 300, first call at time 200 is rejected. -/
theorem shouldSendAlert_fresh_suppressed_witness :
    (200 : ℚ) ≤ 300
    ∧ (shouldSendAlert ([] : AlertHistory) 300 "memory_high" 200
          = (false, [])
        ∧ historyGet ([] : AlertHistory) "memory_high" = 0) :=
  ⟨by norm_num,
    shouldSendAlert_fresh_suppressed 300 200 "memory_high" (by norm_num)⟩

/-- **C2.** The evaluator emits a candidate for a metric iff the value
strictly exceeds that metric's threshold, with priority `"high"` iff the
value exceeds the metric's margin (cpu > 95, load > 8, memory > 95,
disk > 95), else `"medium"`; swap candidates are always `"high"` and
process-CPU candidates always `"medium"` (over the top-5 processes). -/
theorem evaluator_emission (t : Thresholds) (cpu load mem swap : ℚ)
    (parts : List Partition) (procs : List Proc) :
    (∀ a, a ∈ (checkCpuUsage t cpu load).alerts ↔
      (cpu > t.cpu_percent ∧
        a = { type := "cpu_high", value := cpu, threshold := t.cpu_percent,
              priority := if cpu > 95 then "high" else "medium" })
      ∨ (load > t.load_average ∧
        a = { type := "load_high", value := load,
              threshold := t.load_average,
              priority := if load > 8 then "high" else "medium" }))
    ∧ (∀ a, a ∈ (checkMemoryUsage t mem swap).alerts ↔
      (mem > t.memory_percent ∧
        a = { type := "memory_high", value := mem,
              threshold := t.memory_percent,
              priority := if mem > 95 then "high" else "medium" })
      ∨ (swap > 50 ∧
        a = { type := "swap_high", value := swap, threshold := 50,
              priority := "high" }))
    ∧ (∀ a, a ∈ (checkDiskUsage t parts).alerts ↔
      ∃ p ∈ parts, ∃ u, p.usage = some u
        ∧ u.used / u.total * 100 > t.disk_percent
        ∧ a = { type := "disk_high", value := u.used / u.total * 100,
                threshold := t.disk_percent,
                priority := if u.used / u.total * 100 > 95 then "high"
                  else "medium" })
    ∧ (∀ a, a ∈ (checkSystemProcesses procs).alerts ↔
      ∃ p ∈ (sortByCpuDesc procs).take 5, p.cpu_percent > 50
        ∧ a = { type := "process_high_cpu", value := p.cpu_percent,
                threshold := 50, priority := "medium" }) := by
  refine ⟨?_, ?_, ?_, ?_⟩
  · intro a
    by_cases h1 : cpu > t.cpu_percent
      <;> by_cases h2 : load > t.load_average
      <;> simp [checkCpuUsage, h1, h2]
  · intro a
    by_cases h1 : mem > t.memory_percent
      <;> by_cases h2 : swap > (50 : ℚ)
      <;> simp [checkMemoryUsage, h1, h2]
  · intro a
    induction parts with
    | nil => simp [checkDiskUsage]
    | cons p rest ih =>
        match hp : p.usage with
        | none =>
            have hstep : (checkDiskUsage t (p :: rest)).alerts
                = (checkDiskUsage t rest).alerts := by
              simp [checkDiskUsage, hp]
            rw [hstep, ih]
            constructor
            · rintro ⟨q, hq, hrest⟩
              exact ⟨q, List.mem_cons_of_mem _ hq, hrest⟩
            · rintro ⟨q, hq, u, hu, hrest⟩
              rcases List.mem_cons.mp hq with rfl | hq2
              · rw [hp] at hu
                cases hu
              · exact ⟨q, hq2, u, hu, hrest⟩
        | some u =>
            by_cases hb : u.used / u.total * 100 > t.disk_percent
            · have hstep : (checkDiskUsage t (p :: rest)).alerts
                  = { type := "disk_high", value := u.used / u.total * 100,
                      threshold := t.disk_percent,
                      priority := if u.used / u.total * 100 > 95 then "high"
                        else "medium" } :: (checkDiskUsage t rest).alerts := by
                simp [checkDiskUsage, hp, hb]
              rw [hstep, List.mem_cons, ih]
              constructor
              · rintro (he | ⟨q, hq, hw⟩)
                · exact ⟨p, List.mem_cons_self _ _, u, hp, hb, he⟩
                · exact ⟨q, List.mem_cons_of_mem _ hq, hw⟩
              · rintro ⟨q, hq, w, hw, hbw, haw⟩
                rcases List.mem_cons.mp hq with rfl | hq2
                · rw [hp] at hw
                  cases hw
                  exact Or.inl haw
                · exact Or.inr ⟨q, hq2, w, hw, hbw, haw⟩
            · have hstep : (checkDiskUsage t (p :: rest)).alerts
                  = (checkDiskUsage t rest).alerts := by
                simp [checkDiskUsage, hp, hb]
              rw [hstep, ih]
              constructor
              · rintro ⟨q, hq, hw⟩
                exact ⟨q, List.mem_cons_of_mem _ hq, hw⟩
              · rintro ⟨q, hq, w, hw, hbw, haw⟩
                rcases List.mem_cons.mp hq with rfl | hq2
                · rw [hp] at hw
                  cases hw
                  exact absurd hbw hb
                · exact ⟨q, hq2, w, hw, hbw, haw⟩
  · intro a
    simp only [checkSystemProcesses, List.mem_filterMap]
    constructor
    · intro ⟨p, hp, hc⟩
      refine ⟨p, hp, ?_⟩
      by_cases h50 : p.cpu_percent > 50
      · simp [procCandidate, h50] at hc
        exact ⟨h50, hc.symm⟩
      · simp [procCandidate, h50] at hc
    · intro ⟨p, hp, h50, ha⟩
      exact ⟨p, hp, by simp [procCandidate, h50, ha]⟩

/-- Witness for C2 at concrete gauges: default thresholds, cpu 97
(high), load 2, memory 90 (medium), swap 60 (high), one 96%-full
readable mount, one process at 60% CPU (medium). -/
theorem evaluator_emission_witness :
    (∀ a, a ∈ (checkCpuUsage ⟨80, 85, 90, 4⟩ 97 2).alerts ↔
      ((97 : ℚ) > 80 ∧
        a = { type := "cpu_high", value := 97, threshold := 80,
              priority := if (97 : ℚ) > 95 then "high" else "medium" })
      ∨ ((2 : ℚ) > 4 ∧
        a = { type := "load_high", value := 2, threshold := 4,
              priority := if (2 : ℚ) > 8 then "high" else "medium" }))
    ∧ (∀ a, a ∈ (checkMemoryUsage ⟨80, 85, 90, 4⟩ 90 60).alerts ↔
      ((90 : ℚ) > 85 ∧
        a = { type := "memory_high", value := 90, threshold := 85,
              priority := if (90 : ℚ) > 95 then "high" else "medium" })
      ∨ ((60 : ℚ) > 50 ∧
        a = { type := "swap_high", value := 60, threshold := 50,
              priority := "high" }))
    ∧ (∀ a, a ∈ (checkDiskUsage ⟨80, 85, 90, 4⟩
          [⟨"/", some ⟨96, 100, 4⟩⟩]).alerts ↔
      ∃ p ∈ [Partition.mk "/" (some ⟨96, 100, 4⟩)], ∃ u,
        p.usage = some u
        ∧ u.used / u.total * 100 > (90 : ℚ)
        ∧ a = { type := "disk_high", value := u.used / u.total * 100,
                threshold := 90,
                priority := if u.used / u.total * 100 > (95 : ℚ) then "high"
                  else "medium" })
    ∧ (∀ a, a ∈ (checkSystemProcesses [⟨1, "stress", 60⟩]).alerts ↔
      ∃ p ∈ (sortByCpuDesc [⟨1, "stress", 60⟩]).take 5,
        p.cpu_percent > 50
        ∧ a = { type := "process_high_cpu", value := p.cpu_percent,
                threshold := 50, priority := "medium" }) :=
  evaluator_emission ⟨80, 85, 90, 4⟩ 97 2 90 60
    [⟨"/", some ⟨96, 100, 4⟩⟩] [⟨1, "stress", 60⟩]

/-- **C6.** A mount whose usage query raises `PermissionError` is
silently excluded: the output equals the output on the readable mounts
alone (so no candidate alert and no `disk_info` row comes from it), and
the `disk_info` table lists exactly the readable mounts, in order. -/
theorem disk_permission_skip (t : Thresholds) (parts : List Partition) :
    checkDiskUsage t parts
      = checkDiskUsage t (parts.filter (fun p => p.usage.isSome))
    ∧ (checkDiskUsage t parts).disk_usage.map Prod.fst
      = (parts.filter (fun p => p.usage.isSome)).map Partition.mountpoint := by
  constructor
  · induction parts with
    | nil => rfl
    | cons p rest ih =>
        match hp : p.usage with
        | none => simp [checkDiskUsage, hp, List.filter, ih]
        | some u =>
            simp only [List.filter, hp, Option.isSome_some]
            simp only [checkDiskUsage, hp, ih]
  · induction parts with
    | nil => rfl
    | cons p rest ih =>
        match hp : p.usage with
        | none => simp [checkDiskUsage, hp, List.filter, ih]
        | some u =>
            simp only [List.filter, hp, Option.isSome_some]
            by_cases hb : u.used / u.total * 100 > t.disk_percent
              <;> simp [checkDiskUsage, hp, hb, ih]

/-- **C3.** Within one evaluation cycle, once the first candidate of a
type is admitted (at gate-call time `times l₁.length`, the preceding
candidates `l₁` being of other types), and every later gate-call time of
the cycle lies within one cooldown window of that admission, the
admitted candidate is dispatched (admitted and its email attempted) and
every later candidate of the same type in the cycle is rejected by the
gate. -/
theorem same_cycle_exclusivity (c : ℚ) (times : ℕ → ℚ) (eo : ℕ → Bool)
    (h : AlertHistory) (l₁ l₂ : List Alert) (a : Alert)
    (hfirst : ∀ b ∈ l₁, b.type ≠ a.type)
    (hadm : times l₁.length - historyGet h a.type > c)
    (hwin : ∀ j, l₁.length < j → j < (l₁ ++ a :: l₂).length →
      times j - times l₁.length ≤ c) :
    ∃ ds₁ ds₂,
      (processAlerts c times eo h 0 (l₁ ++ a :: l₂)).2
        = ds₁ ++ { alert := a, admitted := true,
                   emailResult := some (eo l₁.length) } :: ds₂
      ∧ ds₁.map Dispatch.alert = l₁
      ∧ ds₂.map Dispatch.alert = l₂
      ∧ (∀ d ∈ ds₁, d.alert.type ≠ a.type)
      ∧ (∀ d ∈ ds₂, d.alert.type = a.type → d.admitted = false) := by
  have happ := processAlerts_append c times eo l₁ (a :: l₂) h 0
  rw [Nat.zero_add] at happ
  have hfr : historyGet (processAlerts c times eo h 0 l₁).1 a.type
      = historyGet h a.type :=
    processAlerts_frame c times eo a.type l₁ h 0 hfirst
  have hcond : times l₁.length
      - historyGet (processAlerts c times eo h 0 l₁).1 a.type > c := by
    rw [hfr]
    exact hadm
  have hgate : shouldSendAlert (processAlerts c times eo h 0 l₁).1 c
      a.type (times l₁.length)
      = (true, historySet (processAlerts c times eo h 0 l₁).1 a.type
          (times l₁.length)) := by
    simp [shouldSendAlert, hcond]
  have hget : historyGet
      (historySet (processAlerts c times eo h 0 l₁).1 a.type
        (times l₁.length)) a.type = times l₁.length :=
    historyGet_historySet_self _ _ _
  have hsup := processAlerts_suppressed c times eo a.type
    (times l₁.length) l₂
    (historySet (processAlerts c times eo h 0 l₁).1 a.type
      (times l₁.length))
    (l₁.length + 1) hget
    (fun j hj hj2 => hwin j (by omega)
      (by simp only [List.length_append, List.length_cons]; omega))
  refine ⟨(processAlerts c times eo h 0 l₁).2,
    (processAlerts c times eo
      (historySet (processAlerts c times eo h 0 l₁).1 a.type
        (times l₁.length))
      (l₁.length + 1) l₂).2, ?_, ?_, ?_, ?_, ?_⟩
  · rw [happ]
    simp [processAlerts, hgate]
  · exact processAlerts_map_alert c times eo l₁ h 0
  · exact processAlerts_map_alert c times eo l₂ _ _
  · intro d hd
    have hda : d.alert ∈ l₁ := by
      rw [← processAlerts_map_alert c times eo l₁ h 0]
      exact List.mem_map_of_mem _ hd
    exact hfirst d.alert hda
  · exact hsup.1

/-- Witness for C3: cooldown 300, empty history, all gate calls at time
1000; the sole leading candidate `cpu_high` is admitted and an identical
`cpu_high` candidate later in the same cycle is rejected. -/
theorem same_cycle_exclusivity_witness :
    (∀ b ∈ ([] : List Alert), b.type ≠ "cpu_high")
    ∧ ((1000 : ℚ) - historyGet [] "cpu_high" > 300)
    ∧ (∀ j : ℕ, (0 : ℕ) < j → j < 2 → (1000 : ℚ) - 1000 ≤ 300)
    ∧ (∃ ds₁ ds₂,
        (processAlerts 300 (fun _ => 1000) (fun _ => true) [] 0
            ([] ++ Alert.mk "cpu_high" 97 80 "high"
              :: [Alert.mk "cpu_high" 97 80 "high"])).2
          = ds₁ ++ { alert := Alert.mk "cpu_high" 97 80 "high",
                     admitted := true, emailResult := some true } :: ds₂
        ∧ ds₁.map Dispatch.alert = []
        ∧ ds₂.map Dispatch.alert = [Alert.mk "cpu_high" 97 80 "high"]
        ∧ (∀ d ∈ ds₁, d.alert.type ≠ "cpu_high")
        ∧ (∀ d ∈ ds₂, d.alert.type = "cpu_high" → d.admitted = false)) :=
  ⟨fun b hb => absurd hb (List.not_mem_nil b),
    by norm_num [historyGet],
    fun j hj hj2 => by norm_num,
    same_cycle_exclusivity 300 (fun _ => 1000) (fun _ => true) [] []
      [Alert.mk "cpu_high" 97 80 "high"] (Alert.mk "cpu_high" 97 80 "high")
      (fun b hb => absurd hb (List.not_mem_nil b))
      (by norm_num [historyGet])
      (fun j hj hj2 => by norm_num)⟩

/-- **C4.** A notification failure is caught inside `send_email`, which
returns `false` rather than raising; the cycle's gate decisions and
final cooldown state do not depend on the email outcomes at all (the
loop completes with the admission timestamps kept, not rolled back); and
after an admission at time `t` — delivered or not — the same type is
rejected at every time `t'` with `t' - t ≤ cooldown`. -/
theorem notify_failure_isolated (reason : String) (c : ℚ)
    (times : ℕ → ℚ) (eo₁ eo₂ : ℕ → Bool) (l : List Alert)
    (h h₀ : AlertHistory) (i : ℕ) (tp : String) (t t' : ℚ)
    (hadm : (shouldSendAlert h₀ c tp t).1 = true) (hwin : t' - t ≤ c) :
    sendEmail (SmtpOutcome.failure reason) = false
    ∧ (processAlerts c times eo₁ h i l).1
        = (processAlerts c times eo₂ h i l).1
    ∧ (processAlerts c times eo₁ h i l).2.map
        (fun d => (d.alert, d.admitted))
      = (processAlerts c times eo₂ h i l).2.map
        (fun d => (d.alert, d.admitted))
    ∧ (shouldSendAlert (shouldSendAlert h₀ c tp t).2 c tp t').1 = false := by
  refine ⟨rfl, (processAlerts_email_indep c times eo₁ eo₂ l h i).1,
    (processAlerts_email_indep c times eo₁ eo₂ l h i).2, ?_⟩
  have hcond : t - historyGet h₀ tp > c := by
    by_contra hc
    simp [shouldSendAlert, hc] at hadm
  have h2 : (shouldSendAlert h₀ c tp t).2 = historySet h₀ tp t := by
    simp [shouldSendAlert, hcond]
  rw [h2]
  have hnot : ¬ t' - historyGet (historySet h₀ tp t) tp > c := by
    rw [historyGet_historySet_self h₀ tp t]
    exact not_lt.mpr hwin
  simp [shouldSendAlert, hnot]

/-- Witness for C4: a failed SMTP send for an admitted `cpu_high` alert
(admitted at time 1000, cooldown 300) returns `false`, the cycle over
one candidate has the same gating under succeeding and failing
transports, and a retry at time 1100 is rejected. -/
theorem notify_failure_isolated_witness :
    ((shouldSendAlert [] 300 "cpu_high" 1000).1 = true)
    ∧ ((1100 : ℚ) - 1000 ≤ 300)
    ∧ (sendEmail (SmtpOutcome.failure "SMTPAuthenticationError") = false
      ∧ (processAlerts 300 (fun _ => 1000) (fun _ => true) [] 0
            [Alert.mk "cpu_high" 97 80 "high"]).1
          = (processAlerts 300 (fun _ => 1000) (fun _ => false) [] 0
              [Alert.mk "cpu_high" 97 80 "high"]).1
      ∧ (processAlerts 300 (fun _ => 1000) (fun _ => true) [] 0
            [Alert.mk "cpu_high" 97 80 "high"]).2.map
            (fun d => (d.alert, d.admitted))
          = (processAlerts 300 (fun _ => 1000) (fun _ => false) [] 0
              [Alert.mk "cpu_high" 97 80 "high"]).2.map
              (fun d => (d.alert, d.admitted))
      ∧ (shouldSendAlert (shouldSendAlert [] 300 "cpu_high" 1000).2 300
          "cpu_high" 1100).1 = false) :=
  ⟨by norm_num [shouldSendAlert, historyGet],
    by norm_num,
    notify_failure_isolated "SMTPAuthenticationError" 300
      (fun _ => 1000) (fun _ => true) (fun _ => false)
      [Alert.mk "cpu_high" 97 80 "high"] [] [] 0 "cpu_high" 1000 1100
      (by norm_num [shouldSendAlert, historyGet])
      (by norm_num)⟩

/-- **C7.** The cycle's candidate sequence is in check order — CPU, then
load (inside `check_cpu_usage`), then memory, then swap, then disk
alerts in mount enumeration order, then process alerts drawn only from
the top 5 processes by descending CPU; the sort is a descending-order
permutation of the process list. -/
theorem candidate_order (t : Thresholds) (s : Snapshot) :
    collectAlerts t s
      = (checkCpuUsage t s.cpu_percent s.load_avg).alerts
        ++ (checkMemoryUsage t s.memory_percent s.swap_percent).alerts
        ++ (checkDiskUsage t s.partitions).alerts
        ++ (checkSystemProcesses s.processes).alerts
    ∧ (checkDiskUsage t s.partitions).alerts
        = s.partitions.filterMap (diskCandidate t)
    ∧ (checkSystemProcesses s.processes).alerts
        = ((sortByCpuDesc s.processes).take 5).filterMap procCandidate
    ∧ (checkSystemProcesses s.processes).top_processes
        = (sortByCpuDesc s.processes).take 5
    ∧ List.Pairwise (fun p q => q.cpu_percent ≤ p.cpu_percent)
        (sortByCpuDesc s.processes)
    ∧ List.Perm (sortByCpuDesc s.processes) s.processes :=
  ⟨rfl, checkDiskUsage_alerts_filterMap t s.partitions, rfl, rfl,
    sortByCpuDesc_sorted s.processes, sortByCpuDesc_perm s.processes⟩

/-- **C8.** Configuration loading merges defaults only at whole
top-level sections: a top-level key present in the file is taken
verbatim (no deep merge of nested keys), a missing one is filled from
the defaults, and an absent file makes `load_config` write the full
default configuration to the file path and use it. -/
theorem config_merge (file : JsonObject) (k : String) :
    ((objGet file k).isSome →
      objGet (load_config (some file)).1 k = objGet file k)
    ∧ (objGet file k = none →
      objGet (load_config (some file)).1 k = objGet default_config k)
    ∧ load_config none = (default_config, some default_config) := by
  refine ⟨?_, ?_, rfl⟩
  · intro hs
    obtain ⟨v, hv⟩ := Option.isSome_iff_exists.mp hs
    show objGet (mergeDefaults default_config file) k = objGet file k
    rw [objGet_mergeDefaults, hv]
    rfl
  · intro hn
    show objGet (mergeDefaults default_config file) k
      = objGet default_config k
    rw [objGet_mergeDefaults, hn]
    simp

/-- Witness for C8: a file whose `thresholds` section has only
`cpu_percent: 50` keeps exactly that section after the merge — the
missing nested threshold keys are not deep-merged in. -/
theorem config_merge_witness :
    (objGet [("thresholds",
        JsonValue.obj [("cpu_percent", JsonValue.num 50)])]
      "thresholds").isSome = true
    ∧ objGet (load_config (some [("thresholds",
          JsonValue.obj [("cpu_percent", JsonValue.num 50)])])).1
        "thresholds"
      = objGet [("thresholds",
          JsonValue.obj [("cpu_percent", JsonValue.num 50)])]
        "thresholds" :=
  ⟨rfl,
    (config_merge [("thresholds",
        JsonValue.obj [("cpu_percent", JsonValue.num 50)])]
      "thresholds").1 rfl⟩

/-- **Counterexample to C5 as stated.** Two `--check` invocations, each
a fresh process whose `alert_history` starts empty: with cooldown 300
and a 97% CPU snapshot, the first invocation at time 1000 admits its
`cpu_high` alert, and the second invocation at time 1100 — within the
first invocation's cooldown window (1100 - 1000 ≤ 300) — admits the
identical alert again instead of suppressing it: the fresh empty state
reads last-fired 0 and 1100 - 0 > 300. -/
theorem check_twice_counterexample :
    ((1100 : ℚ) - 1000 ≤ 300)
    ∧ (runCheckInvocation 300 ⟨80, 85, 90, 4⟩
          (Snapshot.mk 97 0 50 0 [] []) (fun _ => 1000)
          (fun _ => true)).2.map (fun d => (d.alert.type, d.admitted))
        = [("cpu_high", true)]
    ∧ (runCheckInvocation 300 ⟨80, 85, 90, 4⟩
          (Snapshot.mk 97 0 50 0 [] []) (fun _ => 1100)
          (fun _ => true)).2.map (fun d => (d.alert.type, d.admitted))
        = [("cpu_high", true)] := by
  refine ⟨by norm_num, ?_, ?_⟩ <;>
    norm_num [runCheckInvocation, runSystemCheck, collectAlerts,
      checkCpuUsage, checkMemoryUsage, checkDiskUsage,
      checkSystemProcesses, sortByCpuDesc, processAlerts, shouldSendAlert,
      historyGet]

/-- **C5, amended.** Each `--check` invocation starts from an empty
in-memory cooldown state, so the gate does not suppress across
invocations: a fresh invocation admits the identical alert whenever its
gate-call time exceeds `cooldown_period`, regardless of when the
previous invocation fired.  Within one process, a second gate call for
the type inside the window of an admission is suppressed, and one after
the window elapses is re-admitted. -/
theorem check_twice_amended (cooldown : ℚ) (tp : String)
    (t₁ t₂ t₃ : ℚ) (h : AlertHistory)
    (hfresh : t₂ > cooldown)
    (hadm : (shouldSendAlert h cooldown tp t₁).1 = true)
    (hin : t₂ - t₁ ≤ cooldown) (hout : t₃ - t₁ > cooldown) :
    (shouldSendAlert ([] : AlertHistory) cooldown tp t₂).1 = true
    ∧ (shouldSendAlert (shouldSendAlert h cooldown tp t₁).2 cooldown tp
        t₂).1 = false
    ∧ (shouldSendAlert (shouldSendAlert h cooldown tp t₁).2 cooldown tp
        t₃).1 = true := by
  have hcond : t₁ - historyGet h tp > cooldown := by
    by_contra hc
    simp [shouldSendAlert, hc] at hadm
  have h2 : (shouldSendAlert h cooldown tp t₁).2 = historySet h tp t₁ := by
    simp [shouldSendAlert, hcond]
  have hget : historyGet (historySet h tp t₁) tp = t₁ :=
    historyGet_historySet_self h tp t₁
  refine ⟨?_, ?_, ?_⟩
  · have hc : t₂ - historyGet ([] : AlertHistory) tp > cooldown := by
      simpa [historyGet] using hfresh
    simp [shouldSendAlert, hc]
  · rw [h2]
    have hc : ¬ t₂ - historyGet (historySet h tp t₁) tp > cooldown := by
      rw [hget]
      exact not_lt.mpr hin
    simp [shouldSendAlert, hc]
  · rw [h2]
    have hc : t₃ - historyGet (historySet h tp t₁) tp > cooldown := by
      rw [hget]
      exact hout
    simp [shouldSendAlert, hc]

/-- Witness for the amended C5: cooldown 300, first admission at time
1000 from empty state; a fresh invocation at 1100 admits, an
intra-process call at 1100 is suppressed, one at 1301 is re-admitted. -/
theorem check_twice_amended_witness :
    ((1100 : ℚ) > 300)
    ∧ ((shouldSendAlert [] 300 "cpu_high" 1000).1 = true)
    ∧ ((1100 : ℚ) - 1000 ≤ 300)
    ∧ ((1301 : ℚ) - 1000 > 300)
    ∧ ((shouldSendAlert ([] : AlertHistory) 300 "cpu_high" 1100).1 = true
      ∧ (shouldSendAlert (shouldSendAlert [] 300 "cpu_high" 1000).2 300
          "cpu_high" 1100).1 = false
      ∧ (shouldSendAlert (shouldSendAlert [] 300 "cpu_high" 1000).2 300
          "cpu_high" 1301).1 = true) :=
  ⟨by norm_num,
    by norm_num [shouldSendAlert, historyGet],
    by norm_num,
    by norm_num,
    check_twice_amended 300 "cpu_high" 1000 1100 1301 []
      (by norm_num)
      (by norm_num [shouldSendAlert, historyGet])
      (by norm_num)
      (by norm_num)⟩

end SystemMonitor
